import Mathlib

/-!
Verification development for the ABS SDMX bridge repository.
The definitions below are a shallow embedding of the dataflow cache
subsystem (DataFlowService) and the remote data client (ABSApiClient):
pure logic is translated to Lean functions, the stateful service method
`getDataFlows` is translated to explicit state passing over a service
state (in-memory cache plus file system), and the outcomes of the
effectful collaborators (remote fetch, mkdir, file write) are supplied
by an explicit environment record.
-/

namespace Abs

/-- A JSON-like value, modelling the output of the `fast-xml-parser`
configuration used by `ABSApiClient` (attributes flattened onto the
owning element with no prefix, text content under the reserved key
`_text`): strings, numbers, booleans, objects and arrays. -/
inductive JVal where
  | str (s : String)
  | num (n : Int)
  | bool (b : Bool)
  | obj (fields : List (String × JVal))
  | arr (elems : List JVal)
deriving Repr

/-- JavaScript property access `v.k`: yields the field of an object,
and `undefined` (here `none`) on any non-object value or a missing key. -/
def JVal.get (v : JVal) (k : String) : Option JVal :=
  match v with
  | .obj fields => fields.lookup k
  | _ => none

/-- JavaScript truthiness of a value: the empty string, `0` and `false`
are falsy; every object and array (including the empty ones) is truthy. -/
def JVal.truthy : JVal → Bool
  | .str s => s != ""
  | .num n => n != 0
  | .bool b => b
  | .obj _ => true
  | .arr _ => true

mutual

/-- JavaScript string coercion of a value, as performed by a template
literal: strings pass through, numbers render in decimal, booleans as
`true`/`false`, plain objects as `[object Object]`, and arrays join
their elements with commas. -/
def JVal.jsString : JVal → String
  | .str s => s
  | .num n => toString n
  | .bool b => bif b then "true" else "false"
  | .obj _ => "[object Object]"
  | .arr xs => jsStringArr xs

/-- JavaScript string coercion of an array: elements joined by commas. -/
def jsStringArr : List JVal → String
  | [] => ""
  | [x] => JVal.jsString x
  | x :: y :: xs => JVal.jsString x ++ "," ++ jsStringArr (y :: xs)

end

/-- JavaScript string coercion of a possibly-undefined value: the
template literal renders `undefined` as the string "undefined". -/
def optJsString : Option JVal → String
  | none => "undefined"
  | some v => v.jsString

/-- The optional structure reference of a DataFlow record, as built by
`extractDataFlows` from `flow.Structure.Ref`: the three components are
copied without validation, so each is a possibly-undefined value. -/
structure StructureRef where
  id : Option JVal
  version : Option JVal
  agencyID : Option JVal
deriving Repr

/-- A dataflow record as built by `extractDataFlows`. The TypeScript
`DataFlow` interface declares `id`/`agencyID`/`version` as strings, but
extraction copies `flow.id` etc. without validation, so a missing
attribute leaves the field `undefined`; the model therefore types the
three fields as possibly-undefined values. `name` and `description`
are the results of the defaulting expressions and are always values. -/
structure DataFlow where
  id : Option JVal
  agencyID : Option JVal
  version : Option JVal
  name : JVal
  description : JVal
  structure? : Option StructureRef
deriving Repr

/-- The in-memory cache: `lastUpdated` is a JavaScript timestamp in
milliseconds since the epoch, `flows` the extracted dataflow list. -/
structure DataFlowCache where
  lastUpdated : Nat
  flows : List DataFlow
deriving Repr

/-- The defaulting expression `x?._text || ''` applied to the result of
looking up a text-bearing sub-element: an absent or falsy value yields
the empty string, a truthy value passes through. -/
def textOrEmpty : Option JVal → JVal
  | some v => if v.truthy then v else .str ""
  | none => .str ""

/-- `parsed.Structure?.Dataflows?.Dataflow`: the optional-chained lookup
of the dataflow-listing content inside the parsed structural tree. -/
def dataflowContent (parsed : JVal) : Option JVal :=
  ((parsed.get "Structure").bind (fun v => v.get "Dataflows")).bind
    (fun v => v.get "Dataflow")

/-- The per-element body of the `flows.map` in
`DataFlowService.extractDataFlows`: copy `id`/`agencyID`/`version`
unvalidated, default `name`/`description` through `?._text || ''`, and
attach a structure reference only when `flow.Structure?.Ref` is truthy. -/
def extractFlow (flow : JVal) : DataFlow :=
  { id := flow.get "id"
    agencyID := flow.get "agencyID"
    version := flow.get "version"
    name := textOrEmpty ((flow.get "Name").bind (fun v => v.get "_text"))
    description :=
      textOrEmpty ((flow.get "Description").bind (fun v => v.get "_text"))
    structure? :=
      match (flow.get "Structure").bind (fun v => v.get "Ref") with
      | some ref =>
          if ref.truthy then
            some { id := ref.get "id"
                   version := ref.get "version"
                   agencyID := ref.get "agencyID" }
          else none
      | none => none }

/-- `DataFlowService.extractDataFlows`: locate the dataflow-listing
content (`|| []` replaces an absent or falsy result by the empty
array), promote a non-array value to a one-element array, and map the
per-element extraction over the result. -/
def extractDataFlows (parsed : JVal) : List DataFlow :=
  let dataflows : JVal :=
    match dataflowContent parsed with
    | some v => if v.truthy then v else .arr []
    | none => .arr []
  let flows : List JVal :=
    match dataflows with
    | .arr xs => xs
    | v => [v]
  flows.map extractFlow

/-- `DataFlowService.formatDataflowIdentifier`: the template literal
producing the comma-delimited `agencyID,id,version` key. -/
def formatDataflowIdentifier (flow : DataFlow) : String :=
  optJsString flow.agencyID ++ "," ++ optJsString flow.id ++ ","
    ++ optJsString flow.version

/-!
Timestamp serialization. `saveCache` persists the cache with
`JSON.stringify`, which serializes the `Date` in `lastUpdated` through
`Date.prototype.toJSON`, i.e. as the UTC ISO-8601 calendar rendering of
the millisecond timestamp; `loadCache` turns the string back into a
timestamp with `new Date(string)`. The model keeps the broken-down
calendar fields of the ISO string (the zero-padded textual rendering of
those fields is injective and is not modelled further). The
day-number/civil-date conversions below are the standard proleptic
Gregorian algorithms; `yoeOfDoe` computes the year of the 400-year era
by a first guess `doe / 365` corrected downward on overshoot and
clamped to the era's last year, which is extensionally the usual
year-of-era computation. -/

/-- Year of the 400-year era (0..399) containing day-of-era `doe`. -/
def yoeOfDoe (doe : Nat) : Nat :=
  let g := doe / 365
  let g1 := if 365 * g + g / 4 - g / 100 ≤ doe then g else g - 1
  if g1 ≤ 399 then g1 else 399

/-- Day number since 1970-01-01 of a proleptic Gregorian civil date,
as computed by `Date.UTC` for in-range dates. -/
def daysFromCivil (y m d : Nat) : Nat :=
  let y1 := if m ≤ 2 then y - 1 else y
  let era := y1 / 400
  let yoe := y1 % 400
  let mp := (m + 9) % 12
  let doy := (153 * mp + 2) / 5 + d - 1
  let doe := yoe * 365 + yoe / 4 - yoe / 100 + doy
  era * 146097 + doe - 719468

/-- Civil year of day number `z` since 1970-01-01. -/
def civilYear (z : Nat) : Nat :=
  let doe := (z + 719468) % 146097
  let yoe := yoeOfDoe doe
  let doy := doe - (365 * yoe + yoe / 4 - yoe / 100)
  let mp := (5 * doy + 2) / 153
  if mp < 10 then yoe + (z + 719468) / 146097 * 400
  else yoe + (z + 719468) / 146097 * 400 + 1

/-- Civil month (1..12) of day number `z` since 1970-01-01. -/
def civilMonth (z : Nat) : Nat :=
  let doe := (z + 719468) % 146097
  let yoe := yoeOfDoe doe
  let doy := doe - (365 * yoe + yoe / 4 - yoe / 100)
  let mp := (5 * doy + 2) / 153
  if mp < 10 then mp + 3 else mp - 9

/-- Civil day of month (1..31) of day number `z` since 1970-01-01. -/
def civilDay (z : Nat) : Nat :=
  let doe := (z + 719468) % 146097
  let yoe := yoeOfDoe doe
  let doy := doe - (365 * yoe + yoe / 4 - yoe / 100)
  let mp := (5 * doy + 2) / 153
  doy - (153 * mp + 2) / 5 + 1

/-- The broken-down fields of the ISO-8601 UTC rendering of a
timestamp, as produced by `Date.prototype.toISOString`. -/
structure IsoDate where
  year : Nat
  month : Nat
  day : Nat
  hour : Nat
  minute : Nat
  second : Nat
  milli : Nat
deriving Repr

/-- `Date.prototype.toISOString` on a millisecond timestamp (at or
after the epoch): split into day number and time of day, convert the
day number to a civil date. -/
def isoOfMs (t : Nat) : IsoDate :=
  { year := civilYear (t / 86400000)
    month := civilMonth (t / 86400000)
    day := civilDay (t / 86400000)
    hour := t % 86400000 / 3600000
    minute := t % 3600000 / 60000
    second := t % 60000 / 1000
    milli := t % 1000 }

/-- `new Date(isoString).getTime()`: recombine the civil date and time
of day into a millisecond timestamp. -/
def msOfIso (d : IsoDate) : Nat :=
  daysFromCivil d.year d.month d.day * 86400000 + d.hour * 3600000 +
    d.minute * 60000 + d.second * 1000 + d.milli

/-- The persisted JSON document: the cache with its timestamp in
ISO-8601 form, exactly as written by `saveCache`. -/
structure SerializedCache where
  lastUpdated : IsoDate
  flows : List DataFlow
deriving Repr

/-- `JSON.stringify` of the in-memory cache: the timestamp becomes its
ISO rendering, the flow records serialize field by field. -/
def encodeCache (c : DataFlowCache) : SerializedCache :=
  { lastUpdated := isoOfMs c.lastUpdated, flows := c.flows }

/-- `JSON.parse` of the persisted document followed by the
`cache.lastUpdated = new Date(cache.lastUpdated)` conversion in
`loadCache`: the ISO string becomes a timestamp value again. -/
def decodeCache (s : SerializedCache) : DataFlowCache :=
  { lastUpdated := msOfIso s.lastUpdated, flows := s.flows }

/-- A Node.js file-system or JSON-parse error: `code` is the optional
`errno` code (`ENOENT` for a missing file), `message` the error text. -/
structure StorageError where
  code : Option String
  message : String
deriving Repr

/-- The `RemoteError` produced by `ABSApiClient.handleError`: message
plus optional HTTP status, status text and request URL. -/
structure RemoteError where
  message : String
  status : Option Nat
  statusText : Option String
  url : Option String
deriving Repr

/-- The state of the cache file on disk: absent (a read raises
`ENOENT`), readable and well-formed, or failing to read or parse with
the given error. -/
inductive FileContent where
  | absent
  | good (s : SerializedCache)
  | bad (e : StorageError)
deriving Repr

/-- The file-system state visible to the service: the cache file's
content and whether the cache file's parent directory exists. -/
structure FS where
  file : FileContent
  dirExists : Bool
deriving Repr

/-- `fs.readFile` on the cache path: a missing file raises an error
whose code is `ENOENT`. -/
def readFile : FileContent → Except StorageError SerializedCache
  | .absent => .error { code := some "ENOENT", message := "no such file" }
  | .good s => .ok s
  | .bad e => .error e

/-- `DataFlowService.loadCache`: read and parse the cache file,
converting the timestamp back into a timestamp value; an error whose
code is `ENOENT` yields "no cache" (`none`) instead of propagating. -/
def loadCache (fc : FileContent) : Except StorageError (Option DataFlowCache) :=
  match readFile fc with
  | .ok s => .ok (some (decodeCache s))
  | .error e =>
      if e.code = some "ENOENT" then .ok none else .error e

/-- The outcomes that the effectful collaborators of one `getDataFlows`
call would produce: the current time, the result of the remote
fetch-and-parse (`apiClient.getDataFlows()`), and the outcomes of
`fs.mkdir` and `fs.writeFile` (`none` meaning success). -/
structure Env where
  now : Nat
  fetchOutcome : Except RemoteError JVal
  mkdirErr : Option StorageError
  writeErr : Option StorageError

/-- `DataFlowService.saveCache`: create the cache file's parent
directory (recursively), then write the serialized cache; either step
may fail, in which case the error is returned and the file keeps its
previous content. -/
def saveCache (env : Env) (fs : FS) (c : DataFlowCache) :
    FS × Option StorageError :=
  match env.mkdirErr with
  | some e => (fs, some e)
  | none =>
      match env.writeErr with
      | some e => ({ fs with dirExists := true }, some e)
      | none =>
          ({ file := .good (encodeCache c), dirExists := true }, none)

/-- `DataFlowService.isCacheValid`: a null cache is invalid; otherwise
the cache is valid when its age (now minus `lastUpdated`, a signed
difference of timestamps) is strictly below the refresh interval. -/
def isCacheValid (intervalMs now : Nat) : Option DataFlowCache → Bool
  | none => false
  | some c => decide ((now : Int) - (c.lastUpdated : Int) < (intervalMs : Int))

/-- The constructor's `refreshIntervalHours * 60 * 60 * 1000`. -/
def refreshIntervalMs (hours : Nat) : Nat := hours * 60 * 60 * 1000

/-- An error escaping `getDataFlows`: either the `RemoteError` thrown
by the client or a storage error from `loadCache`/`saveCache`,
propagated unchanged. -/
inductive SvcError where
  | remote (e : RemoteError)
  | storage (e : StorageError)
deriving Repr

/-- The service state carried across `getDataFlows` calls: the
in-memory cache and the file system. -/
structure ServiceState where
  cache : Option DataFlowCache
  fs : FS
deriving Repr

/-- The observable outcome of one `getDataFlows` call: the returned
flow list or propagated error, the state afterwards, and how many
times the remote client's fetch was invoked. -/
structure StepResult where
  result : Except SvcError (List DataFlow)
  state : ServiceState
  fetchCount : Nat
deriving Repr

/-- `DataFlowService.getDataFlows`: load the cache from disk if no
in-memory cache exists; then refresh (fetch, extract, replace the
in-memory cache, persist) when forced or when the cache is invalid,
and otherwise return the cached flows. The in-memory cache is
assigned the new snapshot before `saveCache` runs, so a failed save
leaves the new snapshot in memory. -/
def getDataFlows (intervalMs : Nat) (env : Env) (s : ServiceState)
    (forceRefresh : Bool) : StepResult :=
  let loaded : Except StorageError (Option DataFlowCache) :=
    match s.cache with
    | some c => .ok (some c)
    | none => loadCache s.fs.file
  match loaded with
  | .error e => { result := .error (.storage e), state := s, fetchCount := 0 }
  | .ok cache1 =>
      if forceRefresh || !(isCacheValid intervalMs env.now cache1) then
        match env.fetchOutcome with
        | .error e =>
            { result := .error (.remote e)
              state := { s with cache := cache1 }
              fetchCount := 1 }
        | .ok parsed =>
            let flows := extractDataFlows parsed
            let newCache : DataFlowCache := { lastUpdated := env.now, flows }
            let saved := saveCache env s.fs newCache
            match saved.2 with
            | some e =>
                { result := .error (.storage e)
                  state := { cache := some newCache, fs := saved.1 }
                  fetchCount := 1 }
            | none =>
                { result := .ok flows
                  state := { cache := some newCache, fs := saved.1 }
                  fetchCount := 1 }
      else
        { result := .ok ((cache1.map DataFlowCache.flows).getD [])
          state := { s with cache := cache1 }
          fetchCount := 0 }

/-- The `DataFormat` union from the type declarations: the recognized
wire formats for observation data. -/
inductive DataFormat where
  | csvfilewithlabels
  | csvfile
  | jsondata
  | genericdata
  | structurespecificdata
deriving Repr, DecidableEq

/-- Character-list prefix test, the semantics of JavaScript's
`String.prototype.startsWith` used on the format string. -/
def charsPrefixOf : List Char → List Char → Bool
  | [], _ => true
  | _ :: _, [] => false
  | c :: cs, d :: ds => c == d && charsPrefixOf cs ds

/-- `s.startsWith(p)` in JavaScript: `p` is a prefix of `s`. -/
def strStartsWith (s p : String) : Bool := charsPrefixOf p.data s.data

/-- The string value of a `DataFormat` literal, as sent in the query
string and inspected by `startsWith('csv')`. -/
def DataFormat.asString : DataFormat → String
  | .csvfilewithlabels => "csvfilewithlabels"
  | .csvfile => "csvfile"
  | .jsondata => "jsondata"
  | .genericdata => "genericdata"
  | .structurespecificdata => "structurespecificdata"

/-- The `detail` union of `DataQueryOptions`. -/
inductive DetailOption where
  | full
  | dataonly
  | serieskeysonly
  | nodata
deriving Repr, DecidableEq

/-- The `DataQueryOptions` object: every field optional. -/
structure DataQueryOptions where
  startPeriod : Option String := none
  endPeriod : Option String := none
  format : Option DataFormat := none
  detail : Option DetailOption := none
  dimensionAtObservation : Option String := none
deriving Repr

/-- `ABSApiClient.getAcceptHeader`: the fixed format-to-media-type
table; the `default` arm covers an unspecified format. -/
def getAcceptHeader : Option DataFormat → String
  | some .csvfile => "text/csv"
  | some .csvfilewithlabels => "text/csv"
  | some .jsondata => "application/vnd.sdmx.data+json"
  | some .genericdata => "application/xml"
  | some .structurespecificdata =>
      "application/vnd.sdmx.structurespecificdata+xml"
  | none => "application/xml"

/-- The request that `ABSApiClient.getData` issues: the path, the
effective `format` query parameter and the Accept header. -/
structure DataRequest where
  path : String
  formatParam : DataFormat
  acceptHeader : String
deriving Repr

/-- The value `ABSApiClient.getData` resolves with: the raw response
body, or the tree produced by the XML parser. -/
inductive DataResult where
  | raw (body : String)
  | parsedTree (t : JVal)
deriving Repr

/-- `ABSApiClient.getData`: request `/rest/data/<id>/<key>` with the
query options plus a `format` defaulting to `jsondata`, the Accept
header from the format table, and return the body raw when the
requested format starts with `csv`, otherwise the parsed tree.
`parse` stands for the injected `fast-xml-parser` instance and `body`
for the HTTP response body. -/
def getData (parse : String → JVal) (dataflowId dataKey : String)
    (options : Option DataQueryOptions) (body : String) :
    DataRequest × DataResult :=
  let fmt : Option DataFormat := options.bind (fun o => o.format)
  let req : DataRequest :=
    { path := "/rest/data/" ++ dataflowId ++ "/" ++ dataKey
      formatParam := fmt.getD .jsondata
      acceptHeader := getAcceptHeader fmt }
  let res : DataResult :=
    match fmt with
    | some f =>
        if strStartsWith (DataFormat.asString f) "csv" then .raw body
        else .parsedTree (parse body)
    | none => .parsedTree (parse body)
  (req, res)

/-!
Helper lemmas: the civil-date/day-number conversions invert each other,
hence timestamp serialization round-trips at millisecond precision.
-/

theorem yoe_bounds (doe : Nat) (h : doe ≤ 146096) :
    365 * yoeOfDoe doe + yoeOfDoe doe / 4 - yoeOfDoe doe / 100 ≤ doe ∧
    doe - (365 * yoeOfDoe doe + yoeOfDoe doe / 4 - yoeOfDoe doe / 100) ≤ 365 ∧
    yoeOfDoe doe ≤ 399 := by
  simp only [yoeOfDoe]
  split_ifs <;> omega

theorem days_core (z era doe yoe doy mp dd m y : Nat)
    (hera : era = (z + 719468) / 146097) (hdoe : doe = (z + 719468) % 146097)
    (hf : 365 * yoe + yoe / 4 - yoe / 100 ≤ doe)
    (hdoy : doy = doe - (365 * yoe + yoe / 4 - yoe / 100))
    (hdoy365 : doy ≤ 365) (hyoe : yoe ≤ 399)
    (hmp : mp = (5 * doy + 2) / 153)
    (hdd : dd = doy - (153 * mp + 2) / 5 + 1)
    (hm : m = if mp < 10 then mp + 3 else mp - 9)
    (hy : y = if mp < 10 then yoe + era * 400 else yoe + era * 400 + 1) :
    daysFromCivil y m dd = z := by
  have hmp11 : mp ≤ 11 := by omega
  have hle : (153 * mp + 2) / 5 ≤ doy := by omega
  rcases Nat.lt_or_ge mp 10 with hc | hc
  · rw [if_pos hc] at hm hy
    subst hm hy hdd
    simp only [daysFromCivil]
    rw [if_neg (by omega : ¬ (mp + 3 ≤ 2))]
    rw [show (yoe + era * 400) / 400 = era by omega]
    rw [show (yoe + era * 400) % 400 = yoe by omega]
    rw [show (mp + 3 + 9) % 12 = mp by omega]
    omega
  · rw [if_neg (by omega : ¬ (mp < 10))] at hm hy
    subst hm hy hdd
    simp only [daysFromCivil]
    rw [if_pos (by omega : mp - 9 ≤ 2)]
    rw [show yoe + era * 400 + 1 - 1 = yoe + era * 400 by omega]
    rw [show (yoe + era * 400) / 400 = era by omega]
    rw [show (yoe + era * 400) % 400 = yoe by omega]
    rw [show (mp - 9 + 9) % 12 = mp by omega]
    omega

theorem days_roundtrip (z : Nat) :
    daysFromCivil (civilYear z) (civilMonth z) (civilDay z) = z := by
  have hb := yoe_bounds ((z + 719468) % 146097) (by omega)
  exact days_core z ((z + 719468) / 146097) ((z + 719468) % 146097)
    (yoeOfDoe ((z + 719468) % 146097))
    ((z + 719468) % 146097 -
      (365 * yoeOfDoe ((z + 719468) % 146097) +
        yoeOfDoe ((z + 719468) % 146097) / 4 -
        yoeOfDoe ((z + 719468) % 146097) / 100))
    _ _ _ _ rfl rfl hb.1 rfl hb.2.1 hb.2.2 rfl rfl rfl rfl

theorem msOfIso_isoOfMs (t : Nat) : msOfIso (isoOfMs t) = t := by
  simp only [msOfIso, isoOfMs]
  rw [days_roundtrip (t / 86400000)]
  omega

theorem decode_encode (c : DataFlowCache) : decodeCache (encodeCache c) = c := by
  simp [decodeCache, encodeCache, msOfIso_isoOfMs]

/-- C9: `formatDataflowIdentifier` is a pure function returning exactly
the comma-delimited `agencyID,id,version` triple for every dataflow
record with string components, whatever its other fields; in
particular, on agencyID "ABS", id "C21_T01_LGA", version "1.0.0" it
returns exactly "ABS,C21_T01_LGA,1.0.0". -/
theorem formatDataflowIdentifier_spec :
    (∀ (a i v : String) (nm ds : JVal) (st : Option StructureRef),
      formatDataflowIdentifier
        { id := some (.str i), agencyID := some (.str a)
          version := some (.str v), name := nm, description := ds
          structure? := st } = a ++ "," ++ i ++ "," ++ v) ∧
    formatDataflowIdentifier
      { id := some (.str "C21_T01_LGA"), agencyID := some (.str "ABS")
        version := some (.str "1.0.0"), name := .str ""
        description := .str "", structure? := none } =
      "ABS,C21_T01_LGA,1.0.0" := by
  exact ⟨fun a i v nm ds st => rfl, rfl⟩

/-- C3: extraction normalizes the dataflow-listing content as
one-or-many: a single object element yields a one-element list (no
error), an already-sequence yields one record per element, and a
structurally absent dataflow-listing element yields the empty list
rather than an error. -/
theorem extract_one_or_many (parsed : JVal) :
    (∀ fields, dataflowContent parsed = some (.obj fields) →
      extractDataFlows parsed = [extractFlow (.obj fields)]) ∧
    (∀ xs, dataflowContent parsed = some (.arr xs) →
      extractDataFlows parsed = xs.map extractFlow ∧
      (extractDataFlows parsed).length = xs.length) ∧
    (dataflowContent parsed = none → extractDataFlows parsed = []) := by
  refine ⟨fun fields h => ?_, fun xs h => ?_, fun h => ?_⟩ <;>
    simp [extractDataFlows, h, JVal.truthy]

/-- C3 witness: the three normalization cases on concrete trees. -/
theorem extract_one_or_many_witness :
    extractDataFlows (.obj [("Structure", .obj [("Dataflows",
        .obj [("Dataflow", .obj [("id", .str "A")])])])]) =
      [extractFlow (.obj [("id", .str "A")])] ∧
    extractDataFlows (.obj [("Structure", .obj [("Dataflows",
        .obj [("Dataflow", .arr [.obj [("id", .str "A")],
          .obj [("id", .str "B")]])])])]) =
      [.obj [("id", .str "A")], .obj [("id", .str "B")]].map extractFlow ∧
    extractDataFlows (.obj [("Structure", .obj [("Dataflows", .obj [])])]) =
      [] :=
  ⟨(extract_one_or_many _).1 _ rfl,
   ((extract_one_or_many (.obj [("Structure", .obj [("Dataflows",
       .obj [("Dataflow", .arr [.obj [("id", .str "A")],
         .obj [("id", .str "B")]])])])])).2.1
     [.obj [("id", .str "A")], .obj [("id", .str "B")]] rfl).1,
   (extract_one_or_many _).2.2 rfl⟩

/-- C4 counterexample: the claim's biconditional "the record contains a
structure field if and only if the Structure.Ref sub-element is
present" fails on a dataflow element whose Ref sub-element is present
but parsed as the empty string (an empty Ref element): the lookup
succeeds, yet the extracted record carries no structure field. -/
theorem extract_fields_counterexample :
    ((JVal.obj [("Structure", JVal.obj [("Ref", JVal.str "")])]).get
        "Structure").bind (fun v => v.get "Ref") = some (.str "") ∧
    (extractFlow (JVal.obj [("Structure", JVal.obj [("Ref", JVal.str "")])])
      ).structure? = none :=
  ⟨rfl, rfl⟩

/-- C4 (amended): `name` and `description` are taken from the nested
text-bearing sub-elements when the text is truthy and default to the
empty string when the sub-element or its text content is absent (a
falsy text value also yields the empty string); the record contains a
structure field, with id, version and agencyID copied from the
reference sub-element, exactly when `Structure.Ref` is present with a
truthy value — an absent Ref, or a Ref parsed as an empty (falsy)
value, yields no structure field. -/
theorem extract_fields_amended (flow : JVal) :
    ((flow.get "Name").bind (fun v => v.get "_text") = none →
      (extractFlow flow).name = .str "") ∧
    (∀ v, (flow.get "Name").bind (fun w => w.get "_text") = some v →
      v.truthy = true → (extractFlow flow).name = v) ∧
    (∀ v, (flow.get "Name").bind (fun w => w.get "_text") = some v →
      v.truthy = false → (extractFlow flow).name = .str "") ∧
    ((flow.get "Description").bind (fun v => v.get "_text") = none →
      (extractFlow flow).description = .str "") ∧
    (∀ v, (flow.get "Description").bind (fun w => w.get "_text") = some v →
      v.truthy = true → (extractFlow flow).description = v) ∧
    (∀ v, (flow.get "Description").bind (fun w => w.get "_text") = some v →
      v.truthy = false → (extractFlow flow).description = .str "") ∧
    (∀ r, (flow.get "Structure").bind (fun v => v.get "Ref") = some r →
      r.truthy = true →
      (extractFlow flow).structure? =
        some { id := r.get "id", version := r.get "version"
               agencyID := r.get "agencyID" }) ∧
    (∀ r, (flow.get "Structure").bind (fun v => v.get "Ref") = some r →
      r.truthy = false → (extractFlow flow).structure? = none) ∧
    ((flow.get "Structure").bind (fun v => v.get "Ref") = none →
      (extractFlow flow).structure? = none) := by
  refine ⟨fun h => ?_, fun v h ht => ?_, fun v h ht => ?_, fun h => ?_,
    fun v h ht => ?_, fun v h ht => ?_, fun r h ht => ?_, fun r h ht => ?_,
    fun h => ?_⟩
  · simp [extractFlow, textOrEmpty, h]
  · simp [extractFlow, textOrEmpty, h, ht]
  · simp [extractFlow, textOrEmpty, h, ht]
  · simp [extractFlow, textOrEmpty, h]
  · simp [extractFlow, textOrEmpty, h, ht]
  · simp [extractFlow, textOrEmpty, h, ht]
  · simp [extractFlow, textOrEmpty, h, ht]
  · simp [extractFlow, textOrEmpty, h, ht]
  · simp [extractFlow, textOrEmpty, h]

/-- C4 witness: the amended behavior on concrete dataflow elements —
a fully populated element, an element with no Description and no
Structure, and the empty-Ref element. -/
theorem extract_fields_witness :
    (extractFlow (.obj [("id", .str "F"),
        ("Name", .obj [("_text", .str "flow name")]),
        ("Description", .obj [("_text", .str "d")]),
        ("Structure", .obj [("Ref", .obj [("id", .str "S"),
          ("version", .str "1.0"), ("agencyID", .str "ABS")])])])).name =
      .str "flow name" ∧
    (extractFlow (.obj [("id", .str "F"),
        ("Name", .obj [("_text", .str "flow name")]),
        ("Description", .obj [("_text", .str "d")]),
        ("Structure", .obj [("Ref", .obj [("id", .str "S"),
          ("version", .str "1.0"), ("agencyID", .str "ABS")])])])).structure? =
      some { id := some (.str "S"), version := some (.str "1.0")
             agencyID := some (.str "ABS") } ∧
    (extractFlow (.obj [("id", .str "F")])).description = .str "" ∧
    (extractFlow (.obj [("id", .str "F")])).structure? = none :=
  ⟨(extract_fields_amended _).2.1 _ rfl rfl,
   by
    have h := (extract_fields_amended (.obj [("id", .str "F"),
        ("Name", .obj [("_text", .str "flow name")]),
        ("Description", .obj [("_text", .str "d")]),
        ("Structure", .obj [("Ref", .obj [("id", .str "S"),
          ("version", .str "1.0"),
          ("agencyID", .str "ABS")])])])).2.2.2.2.2.2.1
      (.obj [("id", .str "S"), ("version", .str "1.0"),
        ("agencyID", .str "ABS")]) rfl rfl
    simpa using h,
   (extract_fields_amended _).2.2.2.1 rfl,
   (extract_fields_amended _).2.2.2.2.2.2.2.2 rfl⟩

/-- C10: extraction performs no validation of the required attributes:
a dataflow element missing its id, agencyID or version attribute still
yields a record (extraction never raises), with the corresponding
field simply absent, and the record still appears in the extracted
list for any tree listing the element. -/
theorem extract_no_validation (flow : JVal) :
    (flow.get "id" = none → (extractFlow flow).id = none) ∧
    (flow.get "agencyID" = none → (extractFlow flow).agencyID = none) ∧
    (flow.get "version" = none → (extractFlow flow).version = none) ∧
    (∀ parsed xs, dataflowContent parsed = some (.arr xs) → flow ∈ xs →
      extractFlow flow ∈ extractDataFlows parsed) := by
  refine ⟨fun h => ?_, fun h => ?_, fun h => ?_, fun parsed xs h hmem => ?_⟩
  · simp [extractFlow, h]
  · simp [extractFlow, h]
  · simp [extractFlow, h]
  · have := ((extract_one_or_many parsed).2.1 xs h).1
    rw [this]
    exact List.mem_map_of_mem _ hmem

/-- C10 witness: a dataflow element with none of the three attributes
still yields a record with those fields absent, and that record is in
the extraction of a tree listing it. -/
theorem extract_no_validation_witness :
    (extractFlow (.obj [("Name", .obj [("_text", .str "X")])])).id = none ∧
    (extractFlow (.obj [("Name", .obj [("_text", .str "X")])])).agencyID =
      none ∧
    (extractFlow (.obj [("Name", .obj [("_text", .str "X")])])).version =
      none ∧
    extractFlow (.obj [("Name", .obj [("_text", .str "X")])]) ∈
      extractDataFlows (.obj [("Structure", .obj [("Dataflows",
        .obj [("Dataflow",
          .arr [.obj [("Name", .obj [("_text", .str "X")])]])])])]) :=
  ⟨(extract_no_validation _).1 rfl,
   (extract_no_validation _).2.1 rfl,
   (extract_no_validation _).2.2.1 rfl,
   (extract_no_validation _).2.2.2 _ _ rfl (List.mem_singleton.mpr rfl)⟩

/-- C1: with an established in-memory cache, `getDataFlows` returns the
cached flows with no remote invocation when not forced and the cache's
age is strictly below the refresh interval; when forced, or when the
age meets or exceeds the interval, it performs exactly one
fetch-and-extract cycle, replaces the in-memory cache (new timestamp
and new flows together), persists it, and returns the new flow list. -/
theorem getDataFlows_refresh_policy (intervalMs : Nat) (env : Env) (fs : FS)
    (c : DataFlowCache) :
    ((env.now : Int) - (c.lastUpdated : Int) < (intervalMs : Int) →
      getDataFlows intervalMs env ⟨some c, fs⟩ false =
        { result := .ok c.flows, state := ⟨some c, fs⟩, fetchCount := 0 }) ∧
    (∀ (forceRefresh : Bool) (parsed : JVal),
      (forceRefresh = true ∨
        (intervalMs : Int) ≤ (env.now : Int) - (c.lastUpdated : Int)) →
      env.fetchOutcome = .ok parsed → env.mkdirErr = none →
      env.writeErr = none →
      getDataFlows intervalMs env ⟨some c, fs⟩ forceRefresh =
        { result := .ok (extractDataFlows parsed)
          state := ⟨some ⟨env.now, extractDataFlows parsed⟩,
            ⟨.good (encodeCache ⟨env.now, extractDataFlows parsed⟩), true⟩⟩
          fetchCount := 1 }) := by
  constructor
  · intro h
    have hval : isCacheValid intervalMs env.now (some c) = true := by
      simp [isCacheValid]; exact h
    simp [getDataFlows, hval]
  · intro forceRefresh parsed hcond hf hm hw
    have hbranch : (forceRefresh ||
        !(isCacheValid intervalMs env.now (some c))) = true := by
      rcases hcond with h | h
      · simp [h]
      · have : isCacheValid intervalMs env.now (some c) = false := by
          simp [isCacheValid]; omega
        simp [this]
    simp [getDataFlows, hbranch, hf, saveCache, hm, hw]

/-- C1 witness: a 23-hour-old cache under a 24-hour interval is served
from memory with no fetch; a 25-hour-old cache triggers exactly one
fetch-and-extract, replacement and persistence. -/
theorem getDataFlows_refresh_policy_witness :
    getDataFlows (refreshIntervalMs 24)
      ⟨90000000, .ok (.obj [("Structure", .obj [("Dataflows",
        .obj [("Dataflow", .obj [("id", .str "A")])])])]), none, none⟩
      ⟨some ⟨90000000 - 23 * 3600000, []⟩, ⟨.absent, false⟩⟩ false =
      { result := .ok []
        state := ⟨some ⟨90000000 - 23 * 3600000, []⟩, ⟨.absent, false⟩⟩
        fetchCount := 0 } ∧
    getDataFlows (refreshIntervalMs 24)
      ⟨90000000, .ok (.obj [("Structure", .obj [("Dataflows",
        .obj [("Dataflow", .obj [("id", .str "A")])])])]), none, none⟩
      ⟨some ⟨90000000 - 25 * 3600000, []⟩, ⟨.absent, false⟩⟩ false =
      { result := .ok (extractDataFlows (.obj [("Structure",
          .obj [("Dataflows", .obj [("Dataflow", .obj [("id", .str "A")])])])]))
        state := ⟨some ⟨90000000, extractDataFlows (.obj [("Structure",
            .obj [("Dataflows",
              .obj [("Dataflow", .obj [("id", .str "A")])])])])⟩,
          ⟨.good (encodeCache ⟨90000000, extractDataFlows (.obj [("Structure",
            .obj [("Dataflows",
              .obj [("Dataflow", .obj [("id", .str "A")])])])])⟩), true⟩⟩
        fetchCount := 1 } :=
  ⟨(getDataFlows_refresh_policy _ _ _ _).1 (by decide),
   (getDataFlows_refresh_policy _ _ _ _).2 false _ (Or.inr (by decide))
     rfl rfl rfl⟩

/-- C2 counterexample: with an established empty cache, a forced
refresh whose remote fetch succeeds but whose storage write fails
propagates the storage error and leaves the file unchanged, yet the
in-memory cache does not remain unchanged: it already holds the new
one-flow snapshot. -/
theorem getDataFlows_failure_counterexample :
    (getDataFlows 0
      ⟨1000, .ok (.obj [("Structure", .obj [("Dataflows",
        .obj [("Dataflow", .obj [("id", .str "A")])])])]), none,
        some ⟨none, "disk full"⟩⟩
      ⟨some ⟨0, []⟩, ⟨.absent, false⟩⟩ true).result =
      .error (.storage ⟨none, "disk full"⟩) ∧
    (getDataFlows 0
      ⟨1000, .ok (.obj [("Structure", .obj [("Dataflows",
        .obj [("Dataflow", .obj [("id", .str "A")])])])]), none,
        some ⟨none, "disk full"⟩⟩
      ⟨some ⟨0, []⟩, ⟨.absent, false⟩⟩ true).state.fs.file = .absent ∧
    ((getDataFlows 0
      ⟨1000, .ok (.obj [("Structure", .obj [("Dataflows",
        .obj [("Dataflow", .obj [("id", .str "A")])])])]), none,
        some ⟨none, "disk full"⟩⟩
      ⟨some ⟨0, []⟩, ⟨.absent, false⟩⟩ true).state.cache.map
        (fun cc => cc.flows.length)) = some 1 ∧
    ((some (⟨0, []⟩ : DataFlowCache)).map (fun cc => cc.flows.length)) =
      some 0 :=
  ⟨rfl, rfl, rfl, rfl⟩

/-- C2 (amended): when a refresh is attempted, the underlying error
propagates unchanged in every failure case; on a remote fetch failure
the previously established cache is unchanged both in memory and on
disk; on a storage failure (mkdir or write) the persisted file is
unchanged, but the in-memory cache has already been replaced by the
complete newly fetched snapshot before the failing save. -/
theorem getDataFlows_failure_amended (intervalMs : Nat) (env : Env) (fs : FS)
    (c : DataFlowCache) (forceRefresh : Bool)
    (hcond : forceRefresh = true ∨
      (intervalMs : Int) ≤ (env.now : Int) - (c.lastUpdated : Int)) :
    (∀ re, env.fetchOutcome = .error re →
      getDataFlows intervalMs env ⟨some c, fs⟩ forceRefresh =
        { result := .error (.remote re), state := ⟨some c, fs⟩
          fetchCount := 1 }) ∧
    (∀ parsed e, env.fetchOutcome = .ok parsed →
      (env.mkdirErr = some e ∨ (env.mkdirErr = none ∧ env.writeErr = some e)) →
      (getDataFlows intervalMs env ⟨some c, fs⟩ forceRefresh).result =
        .error (.storage e) ∧
      (getDataFlows intervalMs env ⟨some c, fs⟩ forceRefresh).state.fs.file =
        fs.file ∧
      (getDataFlows intervalMs env ⟨some c, fs⟩ forceRefresh).state.cache =
        some ⟨env.now, extractDataFlows parsed⟩) := by
  have hbranch : (forceRefresh ||
      !(isCacheValid intervalMs env.now (some c))) = true := by
    rcases hcond with h | h
    · simp [h]
    · have : isCacheValid intervalMs env.now (some c) = false := by
        simp [isCacheValid]; omega
      simp [this]
  constructor
  · intro re hf
    simp [getDataFlows, hbranch, hf]
  · intro parsed e hf hsave
    rcases hsave with hm | ⟨hm, hw⟩
    · refine ⟨?_, ?_, ?_⟩ <;> simp [getDataFlows, hbranch, hf, saveCache, hm]
    · refine ⟨?_, ?_, ?_⟩ <;>
        simp [getDataFlows, hbranch, hf, saveCache, hm, hw]

/-- C2 witness: both failure branches at concrete inputs — a remote
failure leaves the established cache untouched in memory and on disk
and propagates the `RemoteError`; a write failure propagates the
storage error, leaves the file untouched, and leaves the new snapshot
in memory. -/
theorem getDataFlows_failure_amended_witness :
    getDataFlows 0 ⟨1000, .error ⟨"timeout", some 500, some "err", none⟩,
        none, none⟩
      ⟨some ⟨0, []⟩, ⟨.absent, false⟩⟩ true =
      { result := .error (.remote ⟨"timeout", some 500, some "err", none⟩)
        state := ⟨some ⟨0, []⟩, ⟨.absent, false⟩⟩
        fetchCount := 1 } ∧
    ((getDataFlows 0 ⟨1000, .ok (.obj []), none, some ⟨none, "disk full"⟩⟩
        ⟨some ⟨0, []⟩, ⟨.absent, false⟩⟩ true).result =
        .error (.storage ⟨none, "disk full"⟩) ∧
      (getDataFlows 0 ⟨1000, .ok (.obj []), none, some ⟨none, "disk full"⟩⟩
        ⟨some ⟨0, []⟩, ⟨.absent, false⟩⟩ true).state.fs.file = .absent ∧
      (getDataFlows 0 ⟨1000, .ok (.obj []), none, some ⟨none, "disk full"⟩⟩
        ⟨some ⟨0, []⟩, ⟨.absent, false⟩⟩ true).state.cache =
        some ⟨1000, extractDataFlows (.obj [])⟩) :=
  ⟨(getDataFlows_failure_amended 0 _ _ _ true (Or.inl rfl)).1 _ rfl,
   (getDataFlows_failure_amended 0 _ _ _ true (Or.inl rfl)).2 _
     ⟨none, "disk full"⟩ rfl (Or.inr ⟨rfl, rfl⟩)⟩

/-- C5: for every cache value, persisting it with `saveCache` and
reloading with `loadCache` succeeds and reproduces an equal flow
sequence and a `lastUpdated` equal to the original at millisecond
timestamp precision, deserialized back into a timestamp value (the
decoded field is a number of milliseconds, not the ISO string). -/
theorem cache_roundtrip (c : DataFlowCache) (env : Env) (fs : FS)
    (hm : env.mkdirErr = none) (hw : env.writeErr = none) :
    (saveCache env fs c).2 = none ∧
    loadCache (saveCache env fs c).1.file = .ok (some c) := by
  constructor
  · simp [saveCache, hm, hw]
  · simp [saveCache, hm, hw, loadCache, readFile, decode_encode]

/-- C5 witness: the round-trip at a concrete cache with a concrete
recent timestamp and a one-flow list. -/
theorem cache_roundtrip_witness :
    (saveCache ⟨1700000000000, .ok (.obj []), none, none⟩ ⟨.absent, false⟩
      ⟨1700000000000, [extractFlow (.obj [("id", .str "A")])]⟩).2 = none ∧
    loadCache (saveCache ⟨1700000000000, .ok (.obj []), none, none⟩
        ⟨.absent, false⟩
        ⟨1700000000000, [extractFlow (.obj [("id", .str "A")])]⟩).1.file =
      .ok (some ⟨1700000000000, [extractFlow (.obj [("id", .str "A")])]⟩) :=
  cache_roundtrip ⟨1700000000000, [extractFlow (.obj [("id", .str "A")])]⟩
    ⟨1700000000000, .ok (.obj []), none, none⟩ ⟨.absent, false⟩ rfl rfl

/-- C6: with no cache file on disk and no in-memory cache,
`getDataFlows(false)` treats the missing file as "no cache" rather
than an error, performs exactly one fetch, and creates the cache
file's parent directory (absent beforehand, present afterwards)
before writing the new cache. -/
theorem getDataFlows_no_cache_file (intervalMs : Nat) (env : Env)
    (parsed : JVal) (hf : env.fetchOutcome = .ok parsed)
    (hm : env.mkdirErr = none) (hw : env.writeErr = none) :
    getDataFlows intervalMs env ⟨none, ⟨.absent, false⟩⟩ false =
      { result := .ok (extractDataFlows parsed)
        state := ⟨some ⟨env.now, extractDataFlows parsed⟩,
          ⟨.good (encodeCache ⟨env.now, extractDataFlows parsed⟩), true⟩⟩
        fetchCount := 1 } := by
  simp [getDataFlows, loadCache, readFile, isCacheValid, hf, saveCache,
    hm, hw]

/-- C6 witness: the no-cache-file cold start at a concrete
environment: one fetch, success, and the parent directory exists
afterwards. -/
theorem getDataFlows_no_cache_file_witness :
    getDataFlows 86400000 ⟨5000, .ok (.obj [("Structure",
        .obj [("Dataflows", .obj [("Dataflow",
          .obj [("id", .str "A")])])])]), none, none⟩
      ⟨none, ⟨.absent, false⟩⟩ false =
      { result := .ok (extractDataFlows (.obj [("Structure",
          .obj [("Dataflows", .obj [("Dataflow",
            .obj [("id", .str "A")])])])]))
        state := ⟨some ⟨5000, extractDataFlows (.obj [("Structure",
            .obj [("Dataflows", .obj [("Dataflow",
              .obj [("id", .str "A")])])])])⟩,
          ⟨.good (encodeCache ⟨5000, extractDataFlows (.obj [("Structure",
            .obj [("Dataflows", .obj [("Dataflow",
              .obj [("id", .str "A")])])])])⟩), true⟩⟩
        fetchCount := 1 } :=
  getDataFlows_no_cache_file 86400000 _ _ rfl rfl rfl

/-- C8 counterexample: in the very configuration the claim describes —
no in-memory cache, no persisted cache file, `getDataFlows(false)` with
a 24-hour interval — the call does not return the empty list with no
refresh triggered: it invokes the remote client (a refresh is
triggered), so the claimed no-cache-no-refresh empty return does not
occur on this input. -/
theorem getDataFlows_no_cache_counterexample :
    (getDataFlows 86400000 ⟨0, .ok (.obj []), none, none⟩
      ⟨none, ⟨.absent, false⟩⟩ false).fetchCount = 1 := rfl

/-- C8 (amended): with no cache ever established (no in-memory cache,
no cache file), every `getDataFlows(false)` execution, whatever the
environment, invokes the remote client exactly once — the
no-cache-no-refresh empty return is unreachable. An empty flow list
from a non-error, non-refreshing call is still reachable, but only
through an established cache whose flow list is empty: a first call
from the empty state whose fetch returns a tree with no dataflow
listing establishes a cache with zero flows and returns the empty
list (with one fetch); a second call within the refresh interval then
returns the empty list from the cache with no fetch at all. -/
theorem getDataFlows_empty_reachable :
    (∀ (intervalMs : Nat) (env : Env) (d : Bool),
      (getDataFlows intervalMs env ⟨none, ⟨.absent, d⟩⟩ false).fetchCount =
        1) ∧
    getDataFlows 86400000 ⟨0, .ok (.obj []), none, none⟩
      ⟨none, ⟨.absent, false⟩⟩ false =
      { result := .ok []
        state := ⟨some ⟨0, []⟩, ⟨.good (encodeCache ⟨0, []⟩), true⟩⟩
        fetchCount := 1 } ∧
    getDataFlows 86400000
      ⟨1000, .error ⟨"unreachable", none, none, none⟩, none, none⟩
      ⟨some ⟨0, []⟩, ⟨.good (encodeCache ⟨0, []⟩), true⟩⟩ false =
      { result := .ok []
        state := ⟨some ⟨0, []⟩, ⟨.good (encodeCache ⟨0, []⟩), true⟩⟩
        fetchCount := 0 } := by
  refine ⟨?_, ?_, ?_⟩
  · intro intervalMs env d
    have hload : loadCache FileContent.absent = .ok none := rfl
    simp only [getDataFlows, hload, isCacheValid]
    rcases env.fetchOutcome with e | parsed
    · simp
    · rcases hm : env.mkdirErr with _ | e1
      · rcases hw : env.writeErr with _ | e2 <;> simp [saveCache, hm, hw]
      · simp [saveCache, hm]
  · simp [getDataFlows, loadCache, readFile, isCacheValid, saveCache,
      extractDataFlows, dataflowContent, JVal.get]
  · have hval : isCacheValid 86400000 1000 (some ⟨0, []⟩) = true := by
      simp [isCacheValid]
    simp [getDataFlows, hval]

/-- C7: `getData` defaults the `format` query parameter to `jsondata`
when unspecified, selects the Accept header from the fixed
format-to-media-type table (csv formats to text/csv, jsondata to the
SDMX JSON media type, genericdata to generic XML, structure-specific
to the structure-specific XML media type, unspecified to generic
XML), and returns the raw unparsed body exactly for the CSV variants,
otherwise the parsed tree. -/
theorem getData_format_table (parse : String → JVal)
    (dataflowId dataKey body : String) (sp ep : Option String)
    (dt : Option DetailOption) (dim : Option String) :
    (getData parse dataflowId dataKey none body =
      ({ path := "/rest/data/" ++ dataflowId ++ "/" ++ dataKey
         formatParam := .jsondata, acceptHeader := "application/xml" },
       .parsedTree (parse body))) ∧
    (getData parse dataflowId dataKey
        (some ⟨sp, ep, none, dt, dim⟩) body =
      ({ path := "/rest/data/" ++ dataflowId ++ "/" ++ dataKey
         formatParam := .jsondata, acceptHeader := "application/xml" },
       .parsedTree (parse body))) ∧
    (getData parse dataflowId dataKey
        (some ⟨sp, ep, some .csvfile, dt, dim⟩) body =
      ({ path := "/rest/data/" ++ dataflowId ++ "/" ++ dataKey
         formatParam := .csvfile, acceptHeader := "text/csv" },
       .raw body)) ∧
    (getData parse dataflowId dataKey
        (some ⟨sp, ep, some .csvfilewithlabels, dt, dim⟩) body =
      ({ path := "/rest/data/" ++ dataflowId ++ "/" ++ dataKey
         formatParam := .csvfilewithlabels, acceptHeader := "text/csv" },
       .raw body)) ∧
    (getData parse dataflowId dataKey
        (some ⟨sp, ep, some .jsondata, dt, dim⟩) body =
      ({ path := "/rest/data/" ++ dataflowId ++ "/" ++ dataKey
         formatParam := .jsondata
         acceptHeader := "application/vnd.sdmx.data+json" },
       .parsedTree (parse body))) ∧
    (getData parse dataflowId dataKey
        (some ⟨sp, ep, some .genericdata, dt, dim⟩) body =
      ({ path := "/rest/data/" ++ dataflowId ++ "/" ++ dataKey
         formatParam := .genericdata, acceptHeader := "application/xml" },
       .parsedTree (parse body))) ∧
    (getData parse dataflowId dataKey
        (some ⟨sp, ep, some .structurespecificdata, dt, dim⟩) body =
      ({ path := "/rest/data/" ++ dataflowId ++ "/" ++ dataKey
         formatParam := .structurespecificdata
         acceptHeader := "application/vnd.sdmx.structurespecificdata+xml" },
       .parsedTree (parse body))) := by
  exact ⟨rfl, rfl, rfl, rfl, rfl, rfl, rfl⟩

end Abs
